import Mathlib

/-!
Shallow embedding of the ConseilJS Tezos operation pipeline
(`TezosOperations`), the wallet codec (`TezosWallet`) and the data model
(`TezosTypes`).  Remote node queries, byte-level crypto primitives and JSON
serialization are external collaborators of the repository; they are
abstracted as function-valued structure fields, modelled from the spec's
interface section.  Bytes are `List Nat` (each entry a byte value), machine
strings are `String`, nullable JSON fields are `Option`.
-/

/-- Numeric value of one hexadecimal digit character, if it is one. -/
def hexDigitValue (c : Char) : Option Nat :=
  if ('0' ≤ c ∧ c ≤ '9') then some (c.toNat - '0'.toNat)
  else if ('a' ≤ c ∧ c ≤ 'f') then some (c.toNat - 'a'.toNat + 10)
  else if ('A' ≤ c ∧ c ≤ 'F') then some (c.toNat - 'A'.toNat + 10)
  else none

/-- Decoding of a hexadecimal character list into bytes, two digits per byte;
fails on odd length or a non-hex character (as sodium.from_hex throws). -/
def fromHexChars : List Char → Option (List Nat)
  | [] => some []
  | [_] => none
  | c1 :: c2 :: rest => do
    let hi ← hexDigitValue c1
    let lo ← hexDigitValue c2
    let bs ← fromHexChars rest
    pure ((16 * hi + lo) :: bs)

/-- Model of sodium.from_hex: hex string to bytes. -/
def from_hex (s : String) : Option (List Nat) := fromHexChars s.data

/-- Lower-case hex digit character for a value below sixteen. -/
def hexDigitChar (n : Nat) : Char :=
  if n < 10 then Char.ofNat ('0'.toNat + n) else Char.ofNat ('a'.toNat + (n - 10))

/-- Model of sodium.to_hex: bytes to lower-case hex string. -/
def to_hex (bs : List Nat) : String :=
  String.mk (bs.flatMap fun b => [hexDigitChar (b % 256 / 16), hexDigitChar (b % 16)])

/-- KeyStore from types/KeyStore: a signing identity. -/
structure KeyStore where
  publicKey : String
  privateKey : String
  publicKeyHash : String
deriving DecidableEq, Repr

/-- BlockHeader from TezosTypes. -/
structure BlockHeader where
  level : Nat
  proto : Nat
  predecessor : String
  timestamp : String
  validation_pass : Nat
  operations_hash : String
  fitness : List String
  context : String
  priority : Nat
  proof_of_work_nonce : String
  signature : String
deriving DecidableEq, Repr

/-- BlockMetadata from TezosTypes. -/
structure BlockMetadata where
  protocol : String
  chain_id : String
  hash : String
  metadata : BlockHeader
deriving DecidableEq, Repr

/-- AccountDelegate from TezosTypes. -/
structure AccountDelegate where
  setable : Bool
  value : String
deriving DecidableEq, Repr

/-- Account from TezosTypes. -/
structure Account where
  manager : String
  balance : Nat
  spendable : Bool
  delegate : AccountDelegate
  script : String
  counter : Nat
deriving DecidableEq, Repr

/-- AlphaOperationResult from TezosTypes. -/
structure AlphaOperationResult where
  status : String
  originated_contracts : List String
  errors : List String
deriving DecidableEq, Repr

/-- AlphaOperationContentsAndResult from TezosTypes; `id` is absent from the
declared interface but is read by the validator on the error path, and `kind`
may be missing at runtime, so both are Option. -/
structure AlphaOperationContentsAndResult where
  kind : Option String
  metadata : Option AlphaOperationResult
  id : Option String
deriving DecidableEq, Repr

/-- AlphaOperationsWithMetadata from TezosTypes; the `kind`, `id`, `contract`
fields are documented as present only on error, and `contents` may be missing
from a runtime JSON value, so all are Option. -/
structure AlphaOperationsWithMetadata where
  contents : Option (List AlphaOperationContentsAndResult)
  signature : Option String
  kind : Option String
  id : Option String
  contract : Option String
deriving DecidableEq, Repr

/-- Parameters object built by sendTransactionOperation: prim Unit, args []. -/
structure TransactionParameters where
  prim : String
  args : List String
deriving DecidableEq, Repr

/-- Field set of a transaction content, in source literal order. -/
structure TransactionContent where
  destination : String
  amount : String
  storage_limit : String
  gas_limit : String
  counter : String
  fee : String
  source : String
  parameters : TransactionParameters
deriving DecidableEq, Repr

/-- Field set of a delegation content, in source literal order. -/
structure DelegationContent where
  source : String
  fee : String
  counter : String
  storage_limit : String
  gas_limit : String
  delegate : String
deriving DecidableEq, Repr

/-- Field set of an origination content, in source literal order. -/
structure OriginationContent where
  source : String
  fee : String
  counter : String
  gas_limit : String
  storage_limit : String
  managerPubkey : String
  balance : String
  spendable : Bool
  delegatable : Bool
  delegate : String
deriving DecidableEq, Repr

/-- Field set of a reveal content, in source literal order. -/
structure RevealContent where
  source : String
  fee : String
  counter : String
  gas_limit : String
  storage_limit : String
  public_key : String
deriving DecidableEq, Repr

/-- Field set of an activation content, in source literal order. -/
structure ActivationContent where
  pkh : String
  secret : String
deriving DecidableEq, Repr

/-- One operation content; the constructor is the wire `kind` tag. -/
inductive OperationContent where
  | transaction : TransactionContent → OperationContent
  | delegation : DelegationContent → OperationContent
  | origination : OriginationContent → OperationContent
  | reveal : RevealContent → OperationContent
  | activate_account : ActivationContent → OperationContent
deriving DecidableEq, Repr

/-- Payload sent to the node by forgeOperations: branch hash plus contents. -/
structure ForgedOperationPayload where
  branch : String
  contents : List OperationContent
deriving DecidableEq, Repr

/-- One element of the payload sent to the node by applyOperation. -/
structure AppliedOperationPayload where
  protocol : String
  branch : String
  contents : List OperationContent
  signature : String
deriving DecidableEq, Repr

/-- Output of operation signing (SignedOperationGroup). -/
structure SignedOperationGroup where
  bytes : List Nat
  signature : String
deriving DecidableEq, Repr

/-- Result of a successfully sent operation (OperationResult). -/
structure OperationResult where
  results : AlphaOperationsWithMetadata
  operationGroupID : String
deriving DecidableEq, Repr

/-- Modelled from the spec: the crypto, encoding and serialization
collaborators (CryptoUtils, sodium hashing and signing, JSON) are code of
this repository or its libraries that is not under src, so their operations
are abstracted as opaque function fields, per the spec's external interface
section. -/
structure CryptoModel where
  base58CheckDecode : String → String → Option (List Nat)
  base58CheckEncode : List Nat → String → String
  crypto_generichash : Nat → List Nat → List Nat
  crypto_sign_detached : List Nat → List Nat → List Nat
  encryptMessage : String → String → List Nat → List Nat
  decryptMessage : List Nat → String → List Nat → Option String
  generateSaltForPwHash : List Nat
  getKeysFromMnemonicAndPassphrase : String → String → KeyStore
  stringifyIdentities : List KeyStore → String
  parseIdentities : String → Option (List KeyStore)

/-- Modelled from the spec: the remote node collaborator (TezosNodeQuery is
not under src); each RPC is a function returning none on RemoteCallFailure. -/
structure TezosNodeModel where
  getBlockHead : String → Option BlockMetadata
  getAccountForBlock : String → String → String → Option Account
  forgeOperation : String → ForgedOperationPayload → Option String
  applyOperation : String → List AppliedOperationPayload → Option (List AlphaOperationsWithMetadata)
  injectOperation : String → String → Option String

/-- Error outcomes of the pipeline, mirroring the thrown JS errors. -/
inductive TezosError where
  | remoteCallFailure : String → TezosError
  | validationFailure : Option String → TezosError
  | keyDecodingFailure : TezosError
  | typeError : TezosError
deriving DecidableEq, Repr

/-- Outcome of checkAppliedOperationResults: normal return, the deliberate
validation throw carrying the remote diagnostic id, or the JS TypeError
raised by an unguarded access on a missing value. -/
inductive CheckResult where
  | ok : CheckResult
  | validationError : Option String → CheckResult
  | typeError : CheckResult
deriving DecidableEq, Repr

/-- Trace of node RPC invocations made during a run, with their payloads. -/
inductive NodeEvent where
  | getBlockHead : String → NodeEvent
  | getAccountForBlock : String → String → String → NodeEvent
  | forgeOperation : String → ForgedOperationPayload → NodeEvent
  | applyOperation : String → List AppliedOperationPayload → NodeEvent
  | injectOperation : String → String → NodeEvent
deriving DecidableEq, Repr

/-- Payloads of the inject calls recorded in a trace. -/
def injectPayloads : List NodeEvent → List String
  | [] => []
  | NodeEvent.injectOperation _ payload :: rest => payload :: injectPayloads rest
  | _ :: rest => injectPayloads rest

/-- Whether a trace contains an account fetch. -/
def isAccountFetchEvent : NodeEvent → Bool
  | NodeEvent.getAccountForBlock _ _ _ => true
  | _ => false

/-- Whether a wrapper run fetched the source account. -/
def fetchesAccount (tr : List NodeEvent) : Bool := tr.any isAccountFetchEvent

/-- signOperationGroup from TezosOperations: watermark, hash, detached sign,
encode under edsig; bytes are the unwatermarked forged bytes plus raw
signature.  Returns none where the JS throws (bad hex, bad key). -/
def signOperationGroup (crypto : CryptoModel) (forgedOperation : String)
    (keyStore : KeyStore) : Option SignedOperationGroup :=
  let watermark := "03"
  match from_hex (watermark ++ forgedOperation) with
  | none => none
  | some watermarkedForgedOperationBytes =>
    match crypto.base58CheckDecode keyStore.privateKey "edsk" with
    | none => none
    | some privateKeyBytes =>
      let hashedWatermarkedOpBytes := crypto.crypto_generichash 32 watermarkedForgedOperationBytes
      let opSignature := crypto.crypto_sign_detached hashedWatermarkedOpBytes privateKeyBytes
      let hexSignature := crypto.base58CheckEncode opSignature "edsig"
      match from_hex forgedOperation with
      | none => none
      | some forgedBytes => some ⟨forgedBytes ++ opSignature, hexSignature⟩

/-- computeOperationHash from TezosOperations. -/
def computeOperationHash (crypto : CryptoModel) (signedOpGroup : SignedOperationGroup) : String :=
  crypto.base58CheckEncode (crypto.crypto_generichash 32 signedOpGroup.bytes) "op"

/-- Allowed kinds in checkAppliedOperationResults. -/
def validAppliedKinds : List String :=
  ["activate_account", "reveal", "transaction", "origination", "delegation"]

/-- Scan of the contents entries, mirroring the for-of loop: the first entry
whose kind is missing or outside the allowed set throws with its id. -/
def contentEntriesCheck : List AlphaOperationContentsAndResult → CheckResult
  | [] => CheckResult.ok
  | op :: rest =>
    match op.kind with
    | some k =>
      if k ∈ validAppliedKinds then contentEntriesCheck rest
      else CheckResult.validationError op.id
    | none => CheckResult.validationError op.id

/-- Iteration of firstAppliedOp.contents; a missing contents array makes the
unguarded for-of loop itself raise a TypeError. -/
def contentsCheck (firstAppliedOp : AlphaOperationsWithMetadata) : CheckResult :=
  match firstAppliedOp.contents with
  | none => CheckResult.typeError
  | some cs => contentEntriesCheck cs

/-- checkAppliedOperationResults from TezosOperations: reads the zeroth
result without a guard (TypeError on an empty array), checks its top-level
kind when non-null, then every contents entry kind. -/
def checkAppliedOperationResults : List AlphaOperationsWithMetadata → CheckResult
  | [] => CheckResult.typeError
  | firstAppliedOp :: _ =>
    match firstAppliedOp.kind with
    | some k =>
      if k ∈ validAppliedKinds then contentsCheck firstAppliedOp
      else CheckResult.validationError firstAppliedOp.id
    | none => contentsCheck firstAppliedOp

/-- sendOperation from TezosOperations, with an explicit trace of the node
RPC invocations made (head fetch, forge, apply, inject) so that temporal
claims about the run are statable.  Each remote failure aborts as the JS
awaited rejection would; a rejected validation aborts before the inject
call, so no inject event is emitted on that path. -/
def sendOperation (crypto : CryptoModel) (node : TezosNodeModel) (network : String)
    (operations : List OperationContent) (keyStore : KeyStore) :
    Except TezosError OperationResult × List NodeEvent :=
  match node.getBlockHead network with
  | none =>
    (Except.error (TezosError.remoteCallFailure "getBlockHead"),
      [NodeEvent.getBlockHead network])
  | some blockHead =>
    let evHead := NodeEvent.getBlockHead network
    let forgePayload : ForgedOperationPayload := ⟨blockHead.hash, operations⟩
    match node.forgeOperation network forgePayload with
    | none =>
      (Except.error (TezosError.remoteCallFailure "forgeOperation"),
        [evHead, NodeEvent.forgeOperation network forgePayload])
    | some forgedOperationGroup =>
      let evForge := NodeEvent.forgeOperation network forgePayload
      match signOperationGroup crypto forgedOperationGroup keyStore with
      | none => (Except.error TezosError.keyDecodingFailure, [evHead, evForge])
      | some signedOpGroup =>
        let _operationGroupHash := computeOperationHash crypto signedOpGroup
        let applyPayload : List AppliedOperationPayload :=
          [⟨blockHead.protocol, blockHead.hash, operations, signedOpGroup.signature⟩]
        match node.applyOperation network applyPayload with
        | none =>
          (Except.error (TezosError.remoteCallFailure "applyOperation"),
            [evHead, evForge, NodeEvent.applyOperation network applyPayload])
        | some appliedOp =>
          let evApply := NodeEvent.applyOperation network applyPayload
          match checkAppliedOperationResults appliedOp with
          | CheckResult.validationError i =>
            (Except.error (TezosError.validationFailure i), [evHead, evForge, evApply])
          | CheckResult.typeError =>
            (Except.error TezosError.typeError, [evHead, evForge, evApply])
          | CheckResult.ok =>
            let injectionPayload := to_hex signedOpGroup.bytes
            match node.injectOperation network injectionPayload with
            | none =>
              (Except.error (TezosError.remoteCallFailure "injectOperation"),
                [evHead, evForge, evApply, NodeEvent.injectOperation network injectionPayload])
            | some injectedOperation =>
              match appliedOp with
              | [] =>
                (Except.error TezosError.typeError,
                  [evHead, evForge, evApply, NodeEvent.injectOperation network injectionPayload])
              | firstAppliedOp :: _ =>
                (Except.ok ⟨firstAppliedOp, injectedOperation⟩,
                  [evHead, evForge, evApply, NodeEvent.injectOperation network injectionPayload])

/-- sendTransactionOperation from TezosOperations: head fetch, account fetch,
content build with defaulted limits and incremented counter, then submit. -/
def sendTransactionOperation (crypto : CryptoModel) (node : TezosNodeModel) (network : String)
    (keyStore : KeyStore) (toAddress : String) (amount : Nat) (fee : Nat) :
    Except TezosError OperationResult × List NodeEvent :=
  match node.getBlockHead network with
  | none =>
    (Except.error (TezosError.remoteCallFailure "getBlockHead"),
      [NodeEvent.getBlockHead network])
  | some blockHead =>
    match node.getAccountForBlock network blockHead.hash keyStore.publicKeyHash with
    | none =>
      (Except.error (TezosError.remoteCallFailure "getAccountForBlock"),
        [NodeEvent.getBlockHead network,
         NodeEvent.getAccountForBlock network blockHead.hash keyStore.publicKeyHash])
    | some account =>
      let transaction := OperationContent.transaction
        ⟨toAddress, Nat.repr amount, "0", "120", Nat.repr (account.counter + 1),
         Nat.repr fee, keyStore.publicKeyHash, ⟨"Unit", []⟩⟩
      let operations := [transaction]
      let r := sendOperation crypto node network operations keyStore
      (r.1, NodeEvent.getBlockHead network ::
            NodeEvent.getAccountForBlock network blockHead.hash keyStore.publicKeyHash :: r.2)

/-- sendDelegationOperation from TezosOperations. -/
def sendDelegationOperation (crypto : CryptoModel) (node : TezosNodeModel) (network : String)
    (keyStore : KeyStore) (delegate : String) (fee : Nat) :
    Except TezosError OperationResult × List NodeEvent :=
  match node.getBlockHead network with
  | none =>
    (Except.error (TezosError.remoteCallFailure "getBlockHead"),
      [NodeEvent.getBlockHead network])
  | some blockHead =>
    match node.getAccountForBlock network blockHead.hash keyStore.publicKeyHash with
    | none =>
      (Except.error (TezosError.remoteCallFailure "getAccountForBlock"),
        [NodeEvent.getBlockHead network,
         NodeEvent.getAccountForBlock network blockHead.hash keyStore.publicKeyHash])
    | some account =>
      let delegation := OperationContent.delegation
        ⟨keyStore.publicKeyHash, Nat.repr fee, Nat.repr (account.counter + 1), "0", "120", delegate⟩
      let operations := [delegation]
      let r := sendOperation crypto node network operations keyStore
      (r.1, NodeEvent.getBlockHead network ::
            NodeEvent.getAccountForBlock network blockHead.hash keyStore.publicKeyHash :: r.2)

/-- sendOriginationOperation from TezosOperations. -/
def sendOriginationOperation (crypto : CryptoModel) (node : TezosNodeModel) (network : String)
    (keyStore : KeyStore) (amount : Nat) (delegate : String)
    (spendable : Bool) (delegatable : Bool) (fee : Nat) :
    Except TezosError OperationResult × List NodeEvent :=
  match node.getBlockHead network with
  | none =>
    (Except.error (TezosError.remoteCallFailure "getBlockHead"),
      [NodeEvent.getBlockHead network])
  | some blockHead =>
    match node.getAccountForBlock network blockHead.hash keyStore.publicKeyHash with
    | none =>
      (Except.error (TezosError.remoteCallFailure "getAccountForBlock"),
        [NodeEvent.getBlockHead network,
         NodeEvent.getAccountForBlock network blockHead.hash keyStore.publicKeyHash])
    | some account =>
      let origination := OperationContent.origination
        ⟨keyStore.publicKeyHash, Nat.repr fee, Nat.repr (account.counter + 1), "120", "0",
         keyStore.publicKeyHash, Nat.repr amount, spendable, delegatable, delegate⟩
      let operations := [origination]
      let r := sendOperation crypto node network operations keyStore
      (r.1, NodeEvent.getBlockHead network ::
            NodeEvent.getAccountForBlock network blockHead.hash keyStore.publicKeyHash :: r.2)

/-- sendKeyRevealOperation from TezosOperations. -/
def sendKeyRevealOperation (crypto : CryptoModel) (node : TezosNodeModel) (network : String)
    (keyStore : KeyStore) (fee : Nat) :
    Except TezosError OperationResult × List NodeEvent :=
  match node.getBlockHead network with
  | none =>
    (Except.error (TezosError.remoteCallFailure "getBlockHead"),
      [NodeEvent.getBlockHead network])
  | some blockHead =>
    match node.getAccountForBlock network blockHead.hash keyStore.publicKeyHash with
    | none =>
      (Except.error (TezosError.remoteCallFailure "getAccountForBlock"),
        [NodeEvent.getBlockHead network,
         NodeEvent.getAccountForBlock network blockHead.hash keyStore.publicKeyHash])
    | some account =>
      let revealOp := OperationContent.reveal
        ⟨keyStore.publicKeyHash, Nat.repr fee, Nat.repr (account.counter + 1), "120", "0",
         keyStore.publicKey⟩
      let operations := [revealOp]
      let r := sendOperation crypto node network operations keyStore
      (r.1, NodeEvent.getBlockHead network ::
            NodeEvent.getAccountForBlock network blockHead.hash keyStore.publicKeyHash :: r.2)

/-- sendIdentityActivationOperation from TezosOperations: builds the
activation content directly, with no head or account fetch of its own. -/
def sendIdentityActivationOperation (crypto : CryptoModel) (node : TezosNodeModel)
    (network : String) (keyStore : KeyStore) (activationCode : String) :
    Except TezosError OperationResult × List NodeEvent :=
  let activation := OperationContent.activate_account ⟨keyStore.publicKeyHash, activationCode⟩
  let operations := [activation]
  sendOperation crypto node network operations keyStore

/-- EncryptedWalletVersionOne: the persisted wallet record. -/
structure EncryptedWalletVersionOne where
  version : String
  salt : String
  ciphertext : String
  kdf : String
deriving DecidableEq, Repr

/-- Wallet: the in-memory identity list. -/
structure Wallet where
  identities : List KeyStore
deriving DecidableEq, Repr

/-- Modelled from the spec: the file system plus JSON round trip of the
persisted record (fs and JSON are library collaborators), as a map from
file name to the stored record. -/
def FileSystem : Type := String → Option EncryptedWalletVersionOne

/-- loadWallet from TezosWallet: read the record, decode ciphertext then
salt, decrypt under the passphrase, parse the identity list; any failing
step surfaces as none (the JS throw). -/
def loadWallet (crypto : CryptoModel) (fs : FileSystem) (filename passphrase : String) :
    Option Wallet :=
  match fs filename with
  | none => none
  | some encryptedWallet =>
    match crypto.base58CheckDecode encryptedWallet.ciphertext "" with
    | none => none
    | some encryptedKeys =>
      match crypto.base58CheckDecode encryptedWallet.salt "" with
      | none => none
      | some salt =>
        match crypto.decryptMessage encryptedKeys passphrase salt with
        | none => none
        | some keys =>
          match crypto.parseIdentities keys with
          | none => none
          | some identities => some ⟨identities⟩

/-- saveWallet from TezosWallet: serialize the identities, draw a fresh
salt, encrypt, write the version-1 record, then re-load from the written
state and return that value. -/
def saveWallet (crypto : CryptoModel) (fs : FileSystem) (filename : String)
    (wallet : Wallet) (passphrase : String) : FileSystem × Option Wallet :=
  let keys := crypto.stringifyIdentities wallet.identities
  let salt := crypto.generateSaltForPwHash
  let encryptedKeys := crypto.encryptMessage keys passphrase salt
  let encryptedWallet : EncryptedWalletVersionOne :=
    ⟨"1", crypto.base58CheckEncode salt "", crypto.base58CheckEncode encryptedKeys "", "Argon2"⟩
  let written : FileSystem := fun f => if f = filename then some encryptedWallet else fs f
  (written, loadWallet crypto written filename passphrase)

/-- createWallet from TezosWallet: persist an empty identity list and return
the in-memory wallet value. -/
def createWallet (crypto : CryptoModel) (fs : FileSystem) (filename password : String) :
    FileSystem × Wallet :=
  let wallet : Wallet := ⟨[]⟩
  ((saveWallet crypto fs filename wallet password).1, wallet)

/-- unlockFundraiserIdentity from TezosWallet: the fundraiser passphrase is
the concatenation of email and password. -/
def unlockFundraiserIdentity (crypto : CryptoModel) (mnemonic email password : String) : KeyStore :=
  let passphrase := email ++ password
  crypto.getKeysFromMnemonicAndPassphrase mnemonic passphrase

/-- unlockIdentityWithMnemonic from TezosWallet. -/
def unlockIdentityWithMnemonic (crypto : CryptoModel) (mnemonic passphrase : String) : KeyStore :=
  crypto.getKeysFromMnemonicAndPassphrase mnemonic passphrase

/-- Concrete identity used to evaluate the model on closed inputs; its
private key is the hex string ab so signing succeeds. -/
def ksI : KeyStore := ⟨"edpkPublic", "ab", "tz1Source"⟩

/-- Concrete instance of the crypto collaborator: hex-based encoding (so the
decode-encode law holds on the inputs used), constant hash, concatenating
signature, and a toy authenticated cipher keyed to the passphrase pw. -/
def cryptoI : CryptoModel :=
  ⟨fun s _ => from_hex s,
   fun bs _ => to_hex bs,
   fun n _ => List.replicate n 1,
   fun h k => h ++ k,
   fun _ _ _ => [1],
   fun bs p _ => if bs = [1] ∧ p = "pw" then some "ids" else none,
   [7],
   fun _ _ => ksI,
   fun _ => "ids",
   fun s => if s = "ids" then some [ksI] else none⟩

/-- Concrete block header. -/
def hdrI : BlockHeader := ⟨1, 1, "pred", "ts", 4, "ophash", ["00"], "ctx", 0, "nonce", "sig"⟩

/-- Concrete block head. -/
def bhI : BlockMetadata := ⟨"proto1", "chain1", "BLhash1", hdrI⟩

/-- Concrete account with remote counter 41. -/
def acctI : Account := ⟨"mgr", 5000, true, ⟨false, "dlg"⟩, "", 41⟩

/-- Concrete conforming apply result: kind transaction at top level and in
the single contents entry. -/
def appliedOkI : AlphaOperationsWithMetadata :=
  ⟨some [⟨some "transaction", none, none⟩], some "sig", some "transaction", none, none⟩

/-- Concrete rejected apply result: unsupported top-level kind faucet with
diagnostic id ERR1. -/
def appliedBadI : AlphaOperationsWithMetadata :=
  ⟨some [], none, some "faucet", some "ERR1", none⟩

/-- Concrete node on which every call succeeds and the apply result
conforms. -/
def nodeI : TezosNodeModel :=
  ⟨fun _ => some bhI,
   fun _ _ _ => some acctI,
   fun _ _ => some "ab",
   fun _ _ => some [appliedOkI],
   fun _ _ => some "opid123"⟩

/-- Concrete node whose apply step reports an unsupported kind. -/
def nodeBadI : TezosNodeModel :=
  ⟨fun _ => some bhI,
   fun _ _ _ => some acctI,
   fun _ _ => some "ab",
   fun _ _ => some [appliedBadI],
   fun _ _ => some "opid123"⟩

/-- Concrete operation content submitted in closed runs. -/
def opI : OperationContent := OperationContent.activate_account ⟨"tz1Source", "code"⟩

/-- Concrete signed operation group produced by the concrete run. -/
def sogI : SignedOperationGroup := (signOperationGroup cryptoI "ab" ksI).getD ⟨[], ""⟩

/-- Concrete wallet holding one identity. -/
def walletI : Wallet := ⟨[ksI]⟩

/-- Concrete empty file system. -/
def fsEmpty : FileSystem := fun _ => none
/-- Helper: decoding with the generic-operation watermark prepended yields
byte three followed by the plain decoding. -/
theorem from_hex_push_watermark (s : String) (fb : List Nat)
    (h : from_hex s = some fb) : from_hex ("03" ++ s) = some (3 :: fb) := by
  unfold from_hex at h ⊢
  have hd : ("03" ++ s).data = '0' :: '3' :: s.data := by
    rw [String.data_append]
    rfl
  rw [hd]
  have h0 : hexDigitValue '0' = some 0 := by decide
  have h3 : hexDigitValue '3' = some 3 := by decide
  simp [fromHexChars, h0, h3, h]

/-- Helper: full characterization of a successful signing run. -/
theorem signOperationGroup_eq (crypto : CryptoModel) (forgedOperation : String)
    (keyStore : KeyStore) (fb pk : List Nat)
    (hhex : from_hex forgedOperation = some fb)
    (hkey : crypto.base58CheckDecode keyStore.privateKey "edsk" = some pk) :
    signOperationGroup crypto forgedOperation keyStore =
      some ⟨fb ++ crypto.crypto_sign_detached (crypto.crypto_generichash 32 (3 :: fb)) pk,
            crypto.base58CheckEncode
              (crypto.crypto_sign_detached (crypto.crypto_generichash 32 (3 :: fb)) pk)
              "edsig"⟩ := by
  simp [signOperationGroup, from_hex_push_watermark forgedOperation fb hhex, hkey, hhex]

/-- Helper: inversion of a successful signing run. -/
theorem signOperationGroup_inv (crypto : CryptoModel) (forgedOperation : String)
    (keyStore : KeyStore) (sog : SignedOperationGroup)
    (h : signOperationGroup crypto forgedOperation keyStore = some sog) :
    ∃ fb pk, from_hex forgedOperation = some fb
      ∧ crypto.base58CheckDecode keyStore.privateKey "edsk" = some pk
      ∧ sog.bytes = fb ++ crypto.crypto_sign_detached (crypto.crypto_generichash 32 (3 :: fb)) pk := by
  rcases hw : from_hex ("03" ++ forgedOperation) with _ | w
  · simp [signOperationGroup, hw] at h
  rcases hk : crypto.base58CheckDecode keyStore.privateKey "edsk" with _ | pk
  · simp [signOperationGroup, hw, hk] at h
  rcases hx : from_hex forgedOperation with _ | fb
  · simp [signOperationGroup, hw, hk, hx] at h
  simp [signOperationGroup, hw, hk, hx] at h
  have hw2 := from_hex_push_watermark forgedOperation fb hx
  rw [hw] at hw2
  have hwe : w = 3 :: fb := by injection hw2
  subst hwe
  exact ⟨fb, pk, rfl, rfl, by rw [← h]⟩
/-- Helper: the contents scan never raises the unguarded-access failure. -/
theorem contentEntriesCheck_ne_typeError (cs : List AlphaOperationContentsAndResult) :
    contentEntriesCheck cs ≠ CheckResult.typeError := by
  induction cs with
  | nil => simp [contentEntriesCheck]
  | cons c rest ih =>
    cases hck : c.kind with
    | none => simp [contentEntriesCheck, hck]
    | some k =>
      by_cases hk : k ∈ validAppliedKinds
      · simpa [contentEntriesCheck, hck, hk] using ih
      · simp [contentEntriesCheck, hck, hk]

/-- Helper: the contents scan accepts a list whose every entry has an
allowed kind. -/
theorem contentEntriesCheck_ok (cs : List AlphaOperationContentsAndResult)
    (h : ∀ c ∈ cs, ∃ k, c.kind = some k ∧ k ∈ validAppliedKinds) :
    contentEntriesCheck cs = CheckResult.ok := by
  induction cs with
  | nil => rfl
  | cons c rest ih =>
    obtain ⟨k, hk, hmem⟩ := h c (List.mem_cons_self c rest)
    have hrest := ih fun x hx => h x (List.mem_cons_of_mem c hx)
    simp [contentEntriesCheck, hk, hmem, hrest]

/-- Helper: the contents scan rejects a list containing an entry with a
missing or disallowed kind, reporting the id of some such entry. -/
theorem contentEntriesCheck_bad (cs : List AlphaOperationContentsAndResult)
    (hbad : ∃ c ∈ cs, ∀ k, c.kind = some k → k ∉ validAppliedKinds) :
    ∃ i, contentEntriesCheck cs = CheckResult.validationError i ∧ ∃ c ∈ cs, i = c.id := by
  induction cs with
  | nil => simp at hbad
  | cons c rest ih =>
    by_cases hc : ∃ k, c.kind = some k ∧ k ∈ validAppliedKinds
    · obtain ⟨k, hk, hmem⟩ := hc
      have hbad2 : ∃ x ∈ rest, ∀ k2, x.kind = some k2 → k2 ∉ validAppliedKinds := by
        obtain ⟨x, hx, hxbad⟩ := hbad
        rcases List.mem_cons.mp hx with hxc | hxr
        · subst hxc
          exact absurd hmem (hxbad k hk)
        · exact ⟨x, hxr, hxbad⟩
      obtain ⟨i, hi, x, hx, hix⟩ := ih hbad2
      exact ⟨i, by simp [contentEntriesCheck, hk, hmem, hi],
        x, List.mem_cons_of_mem c hx, hix⟩
    · push_neg at hc
      refine ⟨c.id, ?_, c, List.mem_cons_self c rest, rfl⟩
      cases hck : c.kind with
      | none => simp [contentEntriesCheck, hck]
      | some k => simp [contentEntriesCheck, hck, hc k hck]
/-- C5: when the first apply result has a contents array, the validator
rejects, with a remote-reported diagnostic id, any result whose non-null
top-level kind or some contents entry kind lies outside the allowed set,
and returns without error when the top-level kind is null or allowed and
every contents entry kind is allowed. -/
theorem checkApplied_rejects_bad_accepts_good (first : AlphaOperationsWithMetadata)
    (rest : List AlphaOperationsWithMetadata) (cs : List AlphaOperationContentsAndResult)
    (hc : first.contents = some cs) :
    (((∃ k, first.kind = some k ∧ k ∉ validAppliedKinds) ∨
        (∃ c ∈ cs, ∀ k, c.kind = some k → k ∉ validAppliedKinds)) →
      ∃ i, checkAppliedOperationResults (first :: rest) = CheckResult.validationError i ∧
        (i = first.id ∨ ∃ c ∈ cs, i = c.id))
    ∧ (((∀ k, first.kind = some k → k ∈ validAppliedKinds) ∧
         (∀ c ∈ cs, ∃ k, c.kind = some k ∧ k ∈ validAppliedKinds)) →
      checkAppliedOperationResults (first :: rest) = CheckResult.ok) := by
  constructor
  · rintro (⟨k, hk, hkbad⟩ | hbad)
    · exact ⟨first.id, by simp [checkAppliedOperationResults, hk, hkbad], Or.inl rfl⟩
    · obtain ⟨i, hi, c, hcmem, hic⟩ := contentEntriesCheck_bad cs hbad
      cases hfk : first.kind with
      | none =>
        exact ⟨i, by simp [checkAppliedOperationResults, hfk, contentsCheck, hc, hi],
          Or.inr ⟨c, hcmem, hic⟩⟩
      | some k =>
        by_cases hk : k ∈ validAppliedKinds
        · exact ⟨i, by simp [checkAppliedOperationResults, hfk, hk, contentsCheck, hc, hi],
            Or.inr ⟨c, hcmem, hic⟩⟩
        · exact ⟨first.id, by simp [checkAppliedOperationResults, hfk, hk], Or.inl rfl⟩
  · rintro ⟨henv, hentries⟩
    have hok := contentEntriesCheck_ok cs hentries
    cases hfk : first.kind with
    | none => simp [checkAppliedOperationResults, hfk, contentsCheck, hc, hok]
    | some k => simp [checkAppliedOperationResults, hfk, henv k hfk, contentsCheck, hc, hok]

/-- Witness for C5: the conforming concrete apply result passes. -/
theorem checkApplied_rejects_bad_accepts_good_witness :
    checkAppliedOperationResults [appliedOkI] = CheckResult.ok := by
  refine (checkApplied_rejects_bad_accepts_good appliedOkI []
    [⟨some "transaction", none, none⟩] rfl).2 ⟨?_, ?_⟩
  · intro k hk
    have hk2 : some "transaction" = some k := hk
    injection hk2 with h
    rw [← h]
    decide
  · intro c hcm
    have hce : c = ⟨some "transaction", none, none⟩ := by simpa using hcm
    subst hce
    exact ⟨"transaction", rfl, by decide⟩

/-- C10 (amended): the validator is total only under the singleton-group
precondition: the empty apply result raises the unguarded-access failure,
a first result carrying a contents array never raises it, and a first
result lacking contents raises it provided the top-level kind check passes
(a disallowed top-level kind still raises the validation error first). -/
theorem checkApplied_guard_totality :
    checkAppliedOperationResults [] = CheckResult.typeError
    ∧ (∀ first rest cs, first.contents = some cs →
        checkAppliedOperationResults (first :: rest) ≠ CheckResult.typeError)
    ∧ (∀ first rest, first.contents = none →
        (∀ k, first.kind = some k → k ∈ validAppliedKinds) →
        checkAppliedOperationResults (first :: rest) = CheckResult.typeError) := by
  refine ⟨rfl, ?_, ?_⟩
  · intro first rest cs hc
    cases hfk : first.kind with
    | none =>
      simpa [checkAppliedOperationResults, hfk, contentsCheck, hc] using
        contentEntriesCheck_ne_typeError cs
    | some k =>
      by_cases hk : k ∈ validAppliedKinds
      · simpa [checkAppliedOperationResults, hfk, hk, contentsCheck, hc] using
          contentEntriesCheck_ne_typeError cs
      · simp [checkAppliedOperationResults, hfk, hk]
  · intro first rest hc henv
    cases hfk : first.kind with
    | none => simp [checkAppliedOperationResults, hfk, contentsCheck, hc]
    | some k => simp [checkAppliedOperationResults, hfk, henv k hfk, contentsCheck, hc]

/-- Witness for C10: a first result with a contents array never raises the
unguarded-access failure. -/
theorem checkApplied_guard_totality_witness :
    checkAppliedOperationResults [appliedOkI] ≠ CheckResult.typeError :=
  checkApplied_guard_totality.2.1 appliedOkI [] [⟨some "transaction", none, none⟩] rfl

/-- Counterexample for C10 as stated: a first result lacking a contents
array but carrying a disallowed top-level kind produces the specified
validation error, not the unguarded-access failure. -/
theorem checkApplied_missing_contents_cex :
    checkAppliedOperationResults [⟨none, none, some "faucet", some "ERR1", none⟩]
      = CheckResult.validationError (some "ERR1")
    ∧ CheckResult.validationError (some "ERR1") ≠ CheckResult.typeError := by
  decide
/-- C1: in any run whose apply result the validator rejects, the inject
call is never made (no inject event is in the trace) and the rejection
error propagates to the caller. -/
theorem sendOperation_rejected_never_injected (crypto : CryptoModel) (node : TezosNodeModel)
    (network : String) (operations : List OperationContent) (keyStore : KeyStore)
    (bh : BlockMetadata) (forged : String) (sog : SignedOperationGroup)
    (appliedOp : List AlphaOperationsWithMetadata)
    (hb : node.getBlockHead network = some bh)
    (hf : node.forgeOperation network ⟨bh.hash, operations⟩ = some forged)
    (hs : signOperationGroup crypto forged keyStore = some sog)
    (ha : node.applyOperation network [⟨bh.protocol, bh.hash, operations, sog.signature⟩]
            = some appliedOp)
    (hc : checkAppliedOperationResults appliedOp ≠ CheckResult.ok) :
    injectPayloads (sendOperation crypto node network operations keyStore).2 = []
    ∧ (∀ i, checkAppliedOperationResults appliedOp = CheckResult.validationError i →
        (sendOperation crypto node network operations keyStore).1 =
          Except.error (TezosError.validationFailure i))
    ∧ (checkAppliedOperationResults appliedOp = CheckResult.typeError →
        (sendOperation crypto node network operations keyStore).1 =
          Except.error TezosError.typeError) := by
  cases hcr : checkAppliedOperationResults appliedOp with
  | ok => exact absurd hcr hc
  | validationError i => simp [sendOperation, hb, hf, hs, ha, hcr, injectPayloads]
  | typeError => simp [sendOperation, hb, hf, hs, ha, hcr, injectPayloads]

/-- Witness for C1: on the concrete node whose apply step reports the
unsupported kind faucet, nothing is injected and the diagnostic id ERR1
reaches the caller. -/
theorem sendOperation_rejected_never_injected_witness :
    injectPayloads (sendOperation cryptoI nodeBadI "net" [opI] ksI).2 = []
    ∧ (∀ i, checkAppliedOperationResults [appliedBadI] = CheckResult.validationError i →
        (sendOperation cryptoI nodeBadI "net" [opI] ksI).1 =
          Except.error (TezosError.validationFailure i))
    ∧ (checkAppliedOperationResults [appliedBadI] = CheckResult.typeError →
        (sendOperation cryptoI nodeBadI "net" [opI] ksI).1 =
          Except.error TezosError.typeError) :=
  sendOperation_rejected_never_injected cryptoI nodeBadI "net" [opI] ksI bhI "ab" sogI
    [appliedBadI] rfl rfl (by decide) rfl (by decide)

/-- C2: for a hex-decodable forged string and an edsk-decodable private
key, signing returns the edsig-encoded detached signature over the 32-byte
generic hash of the watermarked bytes, and the unwatermarked forged bytes
concatenated with the raw signature bytes. -/
theorem signOperationGroup_correct (crypto : CryptoModel) (forgedOperation : String)
    (keyStore : KeyStore) (fb pk : List Nat)
    (hhex : from_hex forgedOperation = some fb)
    (hkey : crypto.base58CheckDecode keyStore.privateKey "edsk" = some pk) :
    signOperationGroup crypto forgedOperation keyStore =
      some ⟨fb ++ crypto.crypto_sign_detached (crypto.crypto_generichash 32 (3 :: fb)) pk,
            crypto.base58CheckEncode
              (crypto.crypto_sign_detached (crypto.crypto_generichash 32 (3 :: fb)) pk)
              "edsig"⟩ :=
  signOperationGroup_eq crypto forgedOperation keyStore fb pk hhex hkey

/-- Witness for C2: the concrete identity signs the forged hex string ab. -/
theorem signOperationGroup_correct_witness :
    signOperationGroup cryptoI "ab" ksI =
      some ⟨[171] ++ cryptoI.crypto_sign_detached (cryptoI.crypto_generichash 32 (3 :: [171])) [171],
            cryptoI.base58CheckEncode
              (cryptoI.crypto_sign_detached (cryptoI.crypto_generichash 32 (3 :: [171])) [171])
              "edsig"⟩ :=
  signOperationGroup_correct cryptoI "ab" ksI [171] [171] (by decide) (by decide)

/-- C3: any run that reaches injection passes the node exactly the hex
encoding of the signed groups bytes, which are the forged bytes followed
by the raw detached signature; nothing is re-forged after signing. -/
theorem sendOperation_injects_exact_signed_bytes (crypto : CryptoModel) (node : TezosNodeModel)
    (network : String) (operations : List OperationContent) (keyStore : KeyStore)
    (bh : BlockMetadata) (forged : String) (sog : SignedOperationGroup)
    (appliedOp : List AlphaOperationsWithMetadata)
    (hb : node.getBlockHead network = some bh)
    (hf : node.forgeOperation network ⟨bh.hash, operations⟩ = some forged)
    (hs : signOperationGroup crypto forged keyStore = some sog)
    (ha : node.applyOperation network [⟨bh.protocol, bh.hash, operations, sog.signature⟩]
            = some appliedOp)
    (hc : checkAppliedOperationResults appliedOp = CheckResult.ok) :
    injectPayloads (sendOperation crypto node network operations keyStore).2
      = [to_hex sog.bytes]
    ∧ ∃ fb pk, from_hex forged = some fb
        ∧ crypto.base58CheckDecode keyStore.privateKey "edsk" = some pk
        ∧ sog.bytes = fb ++ crypto.crypto_sign_detached (crypto.crypto_generichash 32 (3 :: fb)) pk := by
  refine ⟨?_, signOperationGroup_inv crypto forged keyStore sog hs⟩
  rcases hio : node.injectOperation network (to_hex sog.bytes) with _ | injid
  · simp [sendOperation, hb, hf, hs, ha, hc, hio, injectPayloads]
  · cases appliedOp with
    | nil => simp [checkAppliedOperationResults] at hc
    | cons first rest => simp [sendOperation, hb, hf, hs, ha, hc, hio, injectPayloads]

/-- Witness for C3: the concrete successful run injects the hex encoding
of the concrete signed bytes. -/
theorem sendOperation_injects_exact_signed_bytes_witness :
    injectPayloads (sendOperation cryptoI nodeI "net" [opI] ksI).2 = [to_hex sogI.bytes]
    ∧ ∃ fb pk, from_hex "ab" = some fb
        ∧ cryptoI.base58CheckDecode ksI.privateKey "edsk" = some pk
        ∧ sogI.bytes = fb ++ cryptoI.crypto_sign_detached (cryptoI.crypto_generichash 32 (3 :: fb)) pk :=
  sendOperation_injects_exact_signed_bytes cryptoI nodeI "net" [opI] ksI bhI "ab" sogI
    [appliedOkI] rfl rfl (by decide) rfl (by decide)
/-- C4: the transaction wrapper builds exactly one transaction content with
the given destination, decimal-string amount and fee, counter one above the
remote-reported value, gas limit 120, storage limit 0 and Unit parameters,
and hands it to the master submit function after its head and account
fetches. -/
theorem sendTransactionOperation_builds_content (crypto : CryptoModel) (node : TezosNodeModel)
    (network : String) (keyStore : KeyStore) (toAddress : String) (amount fee : Nat)
    (bh : BlockMetadata) (acct : Account)
    (hb : node.getBlockHead network = some bh)
    (hacct : node.getAccountForBlock network bh.hash keyStore.publicKeyHash = some acct) :
    sendTransactionOperation crypto node network keyStore toAddress amount fee =
      ((sendOperation crypto node network
          [OperationContent.transaction
            ⟨toAddress, Nat.repr amount, "0", "120", Nat.repr (acct.counter + 1),
             Nat.repr fee, keyStore.publicKeyHash, ⟨"Unit", []⟩⟩] keyStore).1,
       NodeEvent.getBlockHead network ::
         NodeEvent.getAccountForBlock network bh.hash keyStore.publicKeyHash ::
         (sendOperation crypto node network
            [OperationContent.transaction
              ⟨toAddress, Nat.repr amount, "0", "120", Nat.repr (acct.counter + 1),
               Nat.repr fee, keyStore.publicKeyHash, ⟨"Unit", []⟩⟩] keyStore).2) := by
  simp [sendTransactionOperation, hb, hacct]

/-- Witness for C4: against remote counter 41, destination tz1Receiver,
amount 1000 and fee 100 the built content carries the decimal strings 1000,
100 and counter 42. -/
theorem sendTransactionOperation_builds_content_witness :
    sendTransactionOperation cryptoI nodeI "net" ksI "tz1Receiver" 1000 100 =
      ((sendOperation cryptoI nodeI "net"
          [OperationContent.transaction
            ⟨"tz1Receiver", "1000", "0", "120", "42", "100", "tz1Source", ⟨"Unit", []⟩⟩] ksI).1,
       NodeEvent.getBlockHead "net" ::
         NodeEvent.getAccountForBlock "net" "BLhash1" "tz1Source" ::
         (sendOperation cryptoI nodeI "net"
            [OperationContent.transaction
              ⟨"tz1Receiver", "1000", "0", "120", "42", "100", "tz1Source", ⟨"Unit", []⟩⟩] ksI).2) :=
  sendTransactionOperation_builds_content cryptoI nodeI "net" ksI "tz1Receiver" 1000 100
    bhI acctI rfl rfl

/-- C8 (amended): every wrapper run starts by fetching the block head; the
four counter-bearing wrappers (transaction, delegation, origination,
reveal) fetch the source account; each wrapper builds exactly one content
and calls the master submit function; the activation wrapper performs no
account fetch of its own. -/
theorem wrappers_structure (crypto : CryptoModel) (node : TezosNodeModel) (network : String)
    (keyStore : KeyStore) (toAddress delegate activationCode : String)
    (amount fee : Nat) (spendable delegatable : Bool)
    (bh : BlockMetadata) (acct : Account)
    (hb : node.getBlockHead network = some bh)
    (hacct : node.getAccountForBlock network bh.hash keyStore.publicKeyHash = some acct) :
    (sendTransactionOperation crypto node network keyStore toAddress amount fee =
      ((sendOperation crypto node network
          [OperationContent.transaction
            ⟨toAddress, Nat.repr amount, "0", "120", Nat.repr (acct.counter + 1),
             Nat.repr fee, keyStore.publicKeyHash, ⟨"Unit", []⟩⟩] keyStore).1,
       NodeEvent.getBlockHead network ::
         NodeEvent.getAccountForBlock network bh.hash keyStore.publicKeyHash ::
         (sendOperation crypto node network
            [OperationContent.transaction
              ⟨toAddress, Nat.repr amount, "0", "120", Nat.repr (acct.counter + 1),
               Nat.repr fee, keyStore.publicKeyHash, ⟨"Unit", []⟩⟩] keyStore).2))
    ∧ (sendDelegationOperation crypto node network keyStore delegate fee =
      ((sendOperation crypto node network
          [OperationContent.delegation
            ⟨keyStore.publicKeyHash, Nat.repr fee, Nat.repr (acct.counter + 1), "0", "120",
             delegate⟩] keyStore).1,
       NodeEvent.getBlockHead network ::
         NodeEvent.getAccountForBlock network bh.hash keyStore.publicKeyHash ::
         (sendOperation crypto node network
            [OperationContent.delegation
              ⟨keyStore.publicKeyHash, Nat.repr fee, Nat.repr (acct.counter + 1), "0", "120",
               delegate⟩] keyStore).2))
    ∧ (sendOriginationOperation crypto node network keyStore amount delegate spendable
          delegatable fee =
      ((sendOperation crypto node network
          [OperationContent.origination
            ⟨keyStore.publicKeyHash, Nat.repr fee, Nat.repr (acct.counter + 1), "120", "0",
             keyStore.publicKeyHash, Nat.repr amount, spendable, delegatable, delegate⟩]
          keyStore).1,
       NodeEvent.getBlockHead network ::
         NodeEvent.getAccountForBlock network bh.hash keyStore.publicKeyHash ::
         (sendOperation crypto node network
            [OperationContent.origination
              ⟨keyStore.publicKeyHash, Nat.repr fee, Nat.repr (acct.counter + 1), "120", "0",
               keyStore.publicKeyHash, Nat.repr amount, spendable, delegatable, delegate⟩]
            keyStore).2))
    ∧ (sendKeyRevealOperation crypto node network keyStore fee =
      ((sendOperation crypto node network
          [OperationContent.reveal
            ⟨keyStore.publicKeyHash, Nat.repr fee, Nat.repr (acct.counter + 1), "120", "0",
             keyStore.publicKey⟩] keyStore).1,
       NodeEvent.getBlockHead network ::
         NodeEvent.getAccountForBlock network bh.hash keyStore.publicKeyHash ::
         (sendOperation crypto node network
            [OperationContent.reveal
              ⟨keyStore.publicKeyHash, Nat.repr fee, Nat.repr (acct.counter + 1), "120", "0",
               keyStore.publicKey⟩] keyStore).2))
    ∧ (sendIdentityActivationOperation crypto node network keyStore activationCode =
        sendOperation crypto node network
          [OperationContent.activate_account ⟨keyStore.publicKeyHash, activationCode⟩] keyStore)
    ∧ (∀ operations,
        (sendOperation crypto node network operations keyStore).2.head?
          = some (NodeEvent.getBlockHead network)) := by
  refine ⟨?_, ?_, ?_, ?_, rfl, ?_⟩
  · simp [sendTransactionOperation, hb, hacct]
  · simp [sendDelegationOperation, hb, hacct]
  · simp [sendOriginationOperation, hb, hacct]
  · simp [sendKeyRevealOperation, hb, hacct]
  · intro operations
    rcases hfo : node.forgeOperation network ⟨bh.hash, operations⟩ with _ | forged
    · simp [sendOperation, hb, hfo]
    rcases hsg : signOperationGroup crypto forged keyStore with _ | sog
    · simp [sendOperation, hb, hfo, hsg]
    rcases hap : node.applyOperation network
        [⟨bh.protocol, bh.hash, operations, sog.signature⟩] with _ | applied
    · simp [sendOperation, hb, hfo, hsg, hap]
    rcases hck : checkAppliedOperationResults applied with _ | i | _
    · rcases hin : node.injectOperation network (to_hex sog.bytes) with _ | injected
      · simp [sendOperation, hb, hfo, hsg, hap, hck, hin]
      · rcases applied with _ | ⟨first, rest⟩
        · simp [sendOperation, hb, hfo, hsg, hap, hck, hin]
        · simp [sendOperation, hb, hfo, hsg, hap, hck, hin]
    · simp [sendOperation, hb, hfo, hsg, hap, hck]
    · simp [sendOperation, hb, hfo, hsg, hap, hck]

/-- Witness for C8 (amended): the activation wrapper on the concrete node
is exactly the master submit call on its singleton activation content. -/
theorem wrappers_structure_witness :
    sendIdentityActivationOperation cryptoI nodeI "net" ksI "code" =
      sendOperation cryptoI nodeI "net"
        [OperationContent.activate_account ⟨"tz1Source", "code"⟩] ksI :=
  (wrappers_structure cryptoI nodeI "net" ksI "tz1Receiver" "tz1Delegate" "code" 1000 100
    true true bhI acctI rfl rfl).2.2.2.2.1

/-- Counterexample for C8 as stated: four of the five wrappers, not three,
fetch the source account on the concrete node; in particular the reveal
wrapper also needs a fresh counter and fetches the account, while the
activation wrapper does not. -/
theorem wrappers_structure_cex :
    (List.map fetchesAccount
      [(sendTransactionOperation cryptoI nodeI "net" ksI "tz1Receiver" 1000 100).2,
       (sendDelegationOperation cryptoI nodeI "net" ksI "tz1Delegate" 100).2,
       (sendOriginationOperation cryptoI nodeI "net" ksI 500 "tz1Delegate" true true 100).2,
       (sendKeyRevealOperation cryptoI nodeI "net" ksI 100).2,
       (sendIdentityActivationOperation cryptoI nodeI "net" ksI "code").2])
      = [true, true, true, true, false]
    ∧ (List.count true
        (List.map fetchesAccount
          [(sendTransactionOperation cryptoI nodeI "net" ksI "tz1Receiver" 1000 100).2,
           (sendDelegationOperation cryptoI nodeI "net" ksI "tz1Delegate" 100).2,
           (sendOriginationOperation cryptoI nodeI "net" ksI 500 "tz1Delegate" true true 100).2,
           (sendKeyRevealOperation cryptoI nodeI "net" ksI 100).2,
           (sendIdentityActivationOperation cryptoI nodeI "net" ksI "code").2])) = 4 := by
  decide

/-- C9: fundraiser unlock equals mnemonic unlock under the concatenated
email and password passphrase. -/
theorem unlockFundraiser_eq_unlockWithMnemonic (crypto : CryptoModel)
    (mnemonic email password : String) :
    unlockFundraiserIdentity crypto mnemonic email password =
      unlockIdentityWithMnemonic crypto mnemonic (email ++ password) := rfl
/-- C6: saving writes the version-1 Argon2 record holding the encoded fresh
salt and the encoded encryption of the serialized identities, returns the
re-load of the written state under the same passphrase, and that round trip
restores the identity list exactly, provided the encode and encrypt
collaborators invert on the values used, as the spec requires of them. -/
theorem saveWallet_writes_record_and_roundtrips (crypto : CryptoModel) (fs : FileSystem)
    (filename passphrase : String) (wallet : Wallet)
    (hsalt : crypto.base58CheckDecode (crypto.base58CheckEncode crypto.generateSaltForPwHash "") ""
              = some crypto.generateSaltForPwHash)
    (hct : crypto.base58CheckDecode
             (crypto.base58CheckEncode
               (crypto.encryptMessage (crypto.stringifyIdentities wallet.identities) passphrase
                 crypto.generateSaltForPwHash) "") ""
           = some (crypto.encryptMessage (crypto.stringifyIdentities wallet.identities) passphrase
               crypto.generateSaltForPwHash))
    (hdecrypt : crypto.decryptMessage
                  (crypto.encryptMessage (crypto.stringifyIdentities wallet.identities) passphrase
                    crypto.generateSaltForPwHash) passphrase crypto.generateSaltForPwHash
                = some (crypto.stringifyIdentities wallet.identities))
    (hparse : crypto.parseIdentities (crypto.stringifyIdentities wallet.identities)
              = some wallet.identities) :
    (saveWallet crypto fs filename wallet passphrase).1 filename =
      some ⟨"1", crypto.base58CheckEncode crypto.generateSaltForPwHash "",
            crypto.base58CheckEncode
              (crypto.encryptMessage (crypto.stringifyIdentities wallet.identities) passphrase
                crypto.generateSaltForPwHash) "", "Argon2"⟩
    ∧ (saveWallet crypto fs filename wallet passphrase).2 =
        loadWallet crypto (saveWallet crypto fs filename wallet passphrase).1 filename passphrase
    ∧ (saveWallet crypto fs filename wallet passphrase).2 = some wallet := by
  refine ⟨by simp [saveWallet], rfl, ?_⟩
  obtain ⟨ids⟩ := wallet
  simp only at hct hdecrypt hparse
  simp [saveWallet, loadWallet, hct, hsalt, hdecrypt, hparse]

/-- Witness for C6: the concrete wallet holding one identity saves under
the passphrase pw and re-loads unchanged. -/
theorem saveWallet_writes_record_and_roundtrips_witness :
    (saveWallet cryptoI fsEmpty "w" walletI "pw").1 "w" =
      some ⟨"1", cryptoI.base58CheckEncode cryptoI.generateSaltForPwHash "",
            cryptoI.base58CheckEncode
              (cryptoI.encryptMessage (cryptoI.stringifyIdentities walletI.identities) "pw"
                cryptoI.generateSaltForPwHash) "", "Argon2"⟩
    ∧ (saveWallet cryptoI fsEmpty "w" walletI "pw").2 =
        loadWallet cryptoI (saveWallet cryptoI fsEmpty "w" walletI "pw").1 "w" "pw"
    ∧ (saveWallet cryptoI fsEmpty "w" walletI "pw").2 = some walletI :=
  saveWallet_writes_record_and_roundtrips cryptoI fsEmpty "w" "pw" walletI
    (by decide) (by decide) (by decide) (by decide)

/-- C7: loading a wallet saved under passphrase p with a different
passphrase q fails with a decryption error and yields no identities,
provided the encryption collaborator is authenticated on the values used,
as the spec requires of it. -/
theorem loadWallet_wrong_passphrase_fails (crypto : CryptoModel) (fs : FileSystem)
    (filename p q : String) (wallet : Wallet)
    (_hne : q ≠ p)
    (hsalt : crypto.base58CheckDecode (crypto.base58CheckEncode crypto.generateSaltForPwHash "") ""
              = some crypto.generateSaltForPwHash)
    (hct : crypto.base58CheckDecode
             (crypto.base58CheckEncode
               (crypto.encryptMessage (crypto.stringifyIdentities wallet.identities) p
                 crypto.generateSaltForPwHash) "") ""
           = some (crypto.encryptMessage (crypto.stringifyIdentities wallet.identities) p
               crypto.generateSaltForPwHash))
    (hauth : crypto.decryptMessage
               (crypto.encryptMessage (crypto.stringifyIdentities wallet.identities) p
                 crypto.generateSaltForPwHash) q crypto.generateSaltForPwHash = none) :
    loadWallet crypto (saveWallet crypto fs filename wallet p).1 filename q = none := by
  simp [saveWallet, loadWallet, hct, hsalt, hauth]

/-- Witness for C7: loading the concrete saved wallet with the passphrase
wrong instead of pw yields none. -/
theorem loadWallet_wrong_passphrase_fails_witness :
    loadWallet cryptoI (saveWallet cryptoI fsEmpty "w" walletI "pw").1 "w" "wrong" = none :=
  loadWallet_wrong_passphrase_fails cryptoI fsEmpty "w" "pw" "wrong" walletI
    (by decide) (by decide) (by decide) (by decide)
